import Mathlib

/-!
Verification of the SPI-Meeting-Notes pipeline (src/app.py).

The program is a single-pass CLI pipeline: transcribe an audio file,
build an analysis prompt, call a text-generation service, save two
output files.  The external services (speech-to-text, text generation,
the clock, the filesystem) are modelled as inputs/recorded effects;
every pure computation of src/app.py is embedded directly.

Python's `str.strip()` is embedded as `pyStrip` (drop ASCII whitespace
from both ends), `f"{n:02d}"` as `pad2`, and `getattr(x, "a", d)` on
duck-typed response objects as `Option` fields with a `getD` default.
-/

namespace SPI

/-! ## Basic Python string helpers -/

/-- The whitespace characters stripped by Python's `str.strip()`
(restricted to the ASCII range, which is all that occurs here). -/
def isPyWs (c : Char) : Bool :=
  c == ' ' || c == '\t' || c == '\n' || c == '\r' || c == '\x0b' || c == '\x0c'

/-- Python `str.strip()` on the underlying character list. -/
def pyStripList (l : List Char) : List Char :=
  ((l.dropWhile isPyWs).reverse.dropWhile isPyWs).reverse

/-- Python `s.strip()`. -/
def pyStrip (s : String) : String := ⟨pyStripList s.data⟩

/-- Python `f"{n:02d}"` for a natural number: zero-pad to width 2. -/
def pad2 (n : Nat) : String :=
  if n < 10 then "0" ++ toString n else toString n

/-- Python `str(b).lower()` for a bool. -/
def pyBoolStr (b : Bool) : String := if b then "true" else "false"

/-! ## Transcription adapter (src/app.py lines 14-37) -/

/-- One element of `response.segments` from the verbose transcription
response.  The fields are duck-typed in the source
(`getattr(segment, "start", 0)`, `getattr(segment, "text", "")`), so a
missing attribute is `none`.  `start` is the value of
`int(start_time)`, i.e. the floor of the nonnegative float start
time in seconds. -/
structure Segment where
  start : Option Nat
  text : Option String

/-- The transcription response: `segments` is `getattr(response,
"segments", None)` (with `none` for absent), `text` is
`getattr(response, "text", "")` (with `none` for absent). -/
structure TranscriptionResponse where
  segments : Option (List Segment)
  text : Option String

/-- The body of the `for segment in segments:` loop of
`transcribe_audio` (src/app.py lines 30-36), accumulating `lines`. -/
def segLineStep (lines : List String) (segment : Segment) : List String :=
  let start_sec := segment.start.getD 0
  let mm := start_sec / 60
  let ss := start_sec % 60
  let speaker := "화자미상"
  let text := pyStrip (segment.text.getD "")
  if text ≠ "" then
    lines ++ ["[" ++ pad2 mm ++ ":" ++ pad2 ss ++ "] " ++ speaker ++ ": " ++ text]
  else
    lines

/-- Embedding of `transcribe_audio` (src/app.py lines 14-37) after the
external transcription call returned `response`.  Python's
`if not segments:` is true for an absent attribute (`None`) and for an
empty list. -/
def transcribe_audio (response : TranscriptionResponse) : String :=
  match response.segments with
  | none => pyStrip (response.text.getD "")
  | some [] => pyStrip (response.text.getD "")
  | some segs => pyStrip (String.intercalate "\n" (segs.foldl segLineStep []))

/-- The line a single segment contributes according to the spec:
`none` when the trimmed text is empty, otherwise
`[mm:ss] 화자미상: text` with `(mm, ss) = divmod(floor(start), 60)`
zero-padded to two digits. -/
def claimLine (segment : Segment) : Option String :=
  let start_sec := segment.start.getD 0
  let text := pyStrip (segment.text.getD "")
  if text = "" then none
  else some ("[" ++ pad2 (start_sec / 60) ++ ":" ++ pad2 (start_sec % 60) ++
    "] " ++ "화자미상" ++ ": " ++ text)

/-! ## JSON values and `json.dumps(..., ensure_ascii=False, indent=2)` -/

/-- A JSON document, as parsed by `json.loads` for the quantitative-data
file.  Numbers are modelled as integers (the payloads here are plain
key/value documents; float formatting is outside the claims). -/
inductive Json where
  | null
  | bool (b : Bool)
  | num (n : Int)
  | str (s : String)
  | arr (items : List Json)
  | obj (entries : List (String × Json))

/-- Lowercase hex digit. -/
def hexDigit (n : Nat) : Char :=
  if n < 10 then Char.ofNat ('0'.toNat + n) else Char.ofNat ('a'.toNat + (n - 10))

/-- Escaping of one character inside a JSON string, as done by
`json.dumps` with `ensure_ascii=False`: only the two mandatory escapes,
the shorthand control escapes, and `\u00XX` for other control
characters; every other character (including non-ASCII) verbatim. -/
def jsonEscapeChar (c : Char) : String :=
  if c = '"' then "\\\""
  else if c = '\\' then "\\\\"
  else if c = '\x08' then "\\b"
  else if c = '\x0c' then "\\f"
  else if c = '\n' then "\\n"
  else if c = '\r' then "\\r"
  else if c = '\t' then "\\t"
  else if c.toNat < 32 then
    "\\u00" ++ String.mk [hexDigit (c.toNat / 16), hexDigit (c.toNat % 16)]
  else String.mk [c]

/-- A JSON string literal with quotes, non-ASCII preserved verbatim. -/
def jsonQuote (s : String) : String :=
  "\"" ++ s.data.foldl (fun acc c => acc ++ jsonEscapeChar c) "" ++ "\""

/-- Indentation produced by `json.dumps(..., indent=2)` at nesting
level `lvl`. -/
def indentStr (lvl : Nat) : String := String.mk (List.replicate (2 * lvl) ' ')

mutual

/-- Serialization of one JSON value by
`json.dumps(..., ensure_ascii=False, indent=2)`, at nesting level
`lvl`. -/
def jsonDumpVal (lvl : Nat) : Json → String
  | .null => "null"
  | .bool b => if b then "true" else "false"
  | .num n => toString n
  | .str s => jsonQuote s
  | .arr items =>
    match items with
    | [] => "[]"
    | _ => "[\n" ++ String.intercalate ",\n" (jsonDumpItems (lvl + 1) items) ++
        "\n" ++ indentStr lvl ++ "]"
  | .obj entries =>
    match entries with
    | [] => "\x7b\x7d"
    | _ => "\x7b\n" ++ String.intercalate ",\n" (jsonDumpEntries (lvl + 1) entries) ++
        "\n" ++ indentStr lvl ++ "\x7d"

/-- The indented item lines of a JSON array. -/
def jsonDumpItems (lvl : Nat) : List Json → List String
  | [] => []
  | x :: xs => (indentStr lvl ++ jsonDumpVal lvl x) :: jsonDumpItems lvl xs

/-- The indented `"key": value` lines of a JSON object. -/
def jsonDumpEntries (lvl : Nat) : List (String × Json) → List String
  | [] => []
  | (k, v) :: rest =>
    (indentStr lvl ++ jsonQuote k ++ ": " ++ jsonDumpVal lvl v) :: jsonDumpEntries lvl rest

end

/-- Python `json.dumps(v, ensure_ascii=False, indent=2)`. -/
def pyJsonDumps (v : Json) : String := jsonDumpVal 0 v

/-! ## The prompt builder (src/app.py lines 46-121) -/

/-- The `quantitative_text` expression of `build_analysis_prompt`
(src/app.py lines 57-61).  Python's conditional expression tests the
truthiness of `quantitative_data`, which is falsy both for `None` and
for an empty dict, so both yield the `"없음"` marker. -/
def quantitativeText (quantitative_data : Option (List (String × Json))) : String :=
  match quantitative_data with
  | none => "없음"
  | some [] => "없음"
  | some entries => pyJsonDumps (Json.obj entries)

/-- The `meeting_template` triple-quoted literal (src/app.py lines 63-72). -/
def meeting_template : String :=
  "\n#### [회의/워크숍 분석 보고서]\n1. 회의 개요\n2. 데이터 기반 동향 분석\n3. 주요 발견사항 및 심층 분석\n4. 실행 가능한 가설\n5. 실행 계획 (RASCI 매트릭스)\n6. 사고체인·상식 검증 요약\n7. 부록\n"

/-- The `interview_template` triple-quoted literal (src/app.py lines 74-83). -/
def interview_template : String :=
  "\n#### [1:1 인터뷰 분석 보고서]\n1. 요약 (Executive Summary)\n2. 코드별 분석 결과\n3. 주요 발견사항\n4. 종합 인사이트\n5. 리스크 및 기회\n6. 사고체인·상식 검증 요약\n7. 부록\n"

/-- The `selected_template` expression (src/app.py line 85). -/
def selectedTemplate (report_type : String) : String :=
  if report_type = "meeting" then meeting_template else interview_template

/-- Literal fragments of the prompt f-string (src/app.py lines 87-121),
in order, between the interpolated expressions. -/
def pA : String := "\n## 📌 Universal Interview / Meeting Analysis Prompt\n\n### 1. PARAMETERS\n- Company_Name: \""

/-- Fragment between `company_name` and `language_output`. -/
def pB : String := "\"\n- Language_Output: \""

/-- Fragment between `language_output` and `detail_level`. -/
def pC : String := "\"\n- Output_Detail_Level: \""

/-- Fragment between `detail_level` and the anonymize flag. -/
def pD : String := "\"\n- Privacy_Anonymize: "

/-- Fragment between the anonymize flag and the confidence flag. -/
def pE : String := "\n- Confidence_Labeling: "

/-- Fragment between the confidence flag and `pre_briefing_context`. -/
def pF : String := "\n- Pre_briefing_Context: \""

/-- Fragment between `pre_briefing_context` and `quantitative_text`. -/
def pG : String := "\"\n- Quantitative_Data:\n"

/-- Fragment between `quantitative_text` and `transcript`. -/
def pH : String := "\n\n### 2. INPUT TRANSCRIPT\nINPUT_TRANSCRIPT_START\n<<<\n"

/-- Fragment between `transcript` and `selected_template`. -/
def pI : String := "\n>>>\nINPUT_TRANSCRIPT_END\n\n### 3. EXECUTION PIPELINE & ANALYSIS FRAMEWORKS\n- STAGE 1. 발화 단위 분리 및 코드 매핑 (Pain/Gain/Action), 감성 흐름 분석, 개체/관계 분석\n- STAGE 2. SWOT 분석, RASCI 매트릭스 초안 생성\n- STAGE 3. 실행 가능한 가설 2~3개 도출, 모든 인사이트는 인용/데이터 근거 포함\n\n### 4. FINAL OUTPUT TEMPLATES\n"

/-- Trailing fragment after `selected_template`. -/
def pJ : String := "\n\n### 작성 지침\n- 출력은 반드시 한국어로 작성\n- Privacy_Anonymize=true면 이름/개인정보를 비식별 처리\n- Confidence_Labeling=true면 핵심 주장마다 Evidence Strength(A/B/C) 라벨 명시\n- 표는 Markdown 표 형식으로 작성\n- 발언 인용은 타임스탬프를 포함해 제시\n"

/-- Embedding of `build_analysis_prompt` (src/app.py lines 46-121):
the f-string with the nine arguments interpolated, then `.strip()`. -/
def build_analysis_prompt (transcript report_type company_name language_output
    detail_level : String) (privacy_anonymize confidence_labeling : Bool)
    (pre_briefing_context : String)
    (quantitative_data : Option (List (String × Json))) : String :=
  let quantitative_text := quantitativeText quantitative_data
  let selected_template := selectedTemplate report_type
  pyStrip (pA ++ company_name ++ pB ++ language_output ++ pC ++ detail_level ++
    pD ++ pyBoolStr privacy_anonymize ++ pE ++ pyBoolStr confidence_labeling ++
    pF ++ pre_briefing_context ++ pG ++ quantitative_text ++ pH ++ transcript ++
    pI ++ selected_template ++ pJ)

/-- The leading fragment `pA` without its initial newline. -/
def pAc : String := "## 📌 Universal Interview / Meeting Analysis Prompt\n\n### 1. PARAMETERS\n- Company_Name: \""

/-- The trailing fragment `pJ` without its final newline. -/
def pJc : String := "\n\n### 작성 지침\n- 출력은 반드시 한국어로 작성\n- Privacy_Anonymize=true면 이름/개인정보를 비식별 처리\n- Confidence_Labeling=true면 핵심 주장마다 Evidence Strength(A/B/C) 라벨 명시\n- 표는 Markdown 표 형식으로 작성\n- 발언 인용은 타임스탬프를 포함해 제시"

/-- `pAc` without its first character `#`. -/
def pAcTail : String := "# 📌 Universal Interview / Meeting Analysis Prompt\n\n### 1. PARAMETERS\n- Company_Name: \""

/-- `pJc` without its last character `시`. -/
def pJcInit : String := "\n\n### 작성 지침\n- 출력은 반드시 한국어로 작성\n- Privacy_Anonymize=true면 이름/개인정보를 비식별 처리\n- Confidence_Labeling=true면 핵심 주장마다 Evidence Strength(A/B/C) 라벨 명시\n- 표는 Markdown 표 형식으로 작성\n- 발언 인용은 타임스탬프를 포함해 제"

/-- The prompt without its outer newlines: what `.strip()` leaves. -/
def promptCore (transcript report_type company_name language_output
    detail_level : String) (privacy_anonymize confidence_labeling : Bool)
    (pre_briefing_context : String)
    (quantitative_data : Option (List (String × Json))) : String :=
  pAc ++ company_name ++ pB ++ language_output ++ pC ++ detail_level ++
    pD ++ pyBoolStr privacy_anonymize ++ pE ++ pyBoolStr confidence_labeling ++
    pF ++ pre_briefing_context ++ pG ++ quantitativeText quantitative_data ++
    pH ++ transcript ++ pI ++ selectedTemplate report_type ++ pJc

/-! ## Substring machinery -/

/-- Bool test: is `pat` a prefix of `l`? -/
def listPrefixOf : List Char → List Char → Bool
  | [], _ => true
  | _ :: _, [] => false
  | a :: as, b :: bs => a == b && listPrefixOf as bs

/-- Bool test: does `pat` occur contiguously inside `l`? -/
def listInfixOf (pat : List Char) : List Char → Bool
  | [] => pat.isEmpty
  | b :: bs => listPrefixOf pat (b :: bs) || listInfixOf pat bs

/-- Decidable substring test on strings. -/
def strContains (s pat : String) : Bool := listInfixOf pat.data s.data

/-! ## CLI arguments, main wiring, output writer -/

/-- The parsed CLI arguments of `parse_args` (src/app.py lines 142-173).
Paths are modelled as lists of components. -/
structure Args where
  audio : String
  company : String
  language : String
  output_dir : List String
  report_type : String
  detail_level : String
  pre_briefing_context : String
  quant_data : Option String
  no_anonymize : Bool
  no_confidence_label : Bool

/-- The prompt `main` builds (src/app.py lines 191-201): the flags are
inverted (`privacy_anonymize=not args.no_anonymize`,
`confidence_labeling=not args.no_confidence_label`). -/
def mainPrompt (args : Args) (transcript : String)
    (quantitative_data : Option (List (String × Json))) : String :=
  build_analysis_prompt transcript args.report_type args.company args.language
    args.detail_level (!args.no_anonymize) (!args.no_confidence_label)
    args.pre_briefing_context quantitative_data

/-- The externally observable actions of `main`, in program order. -/
inductive Event where
  | loadDotenv
  | parseArgs
  | readQuantData
  | constructClient
  | transcribeCall
  | generateCall
  | writeOutputs
deriving DecidableEq

/-- The results the outside world supplies to `main`'s external
interactions: whether the audio path exists, the parsed content of the
quantitative-data file (or a JSON parse error), the transcription
response (or a transport error), the generation output as a function of
the prompt (or an error), and the one clock reading used for the output
filenames. -/
structure World where
  audio_exists : Bool
  quant_result : Except String (Option (List (String × Json)))
  transcribe_response : Except String TranscriptionResponse
  generate_output : String → Except String String
  now_ts : String

/-- The effects and results of `save_outputs` (src/app.py lines
129-139).  `now_ts` stands for the single
`datetime.now().strftime("%Y%m%d_%H%M%S")` reading made once per
call. -/
structure SaveOutcome where
  mkdir_path : List String
  mkdir_parents : Bool
  mkdir_exist_ok : Bool
  writes : List (List String × String)
  returned : List String × List String

/-- Embedding of `save_outputs` (src/app.py lines 129-139). -/
def save_outputs (output_dir : List String) (now_ts : String)
    (transcript report : String) : SaveOutcome :=
  let ts := now_ts
  let transcript_path := output_dir ++ ["transcript_" ++ ts ++ ".txt"]
  let report_path := output_dir ++ ["analysis_report_" ++ ts ++ ".md"]
  { mkdir_path := output_dir
    mkdir_parents := true
    mkdir_exist_ok := true
    writes := [(transcript_path, transcript), (report_path, report)]
    returned := (transcript_path, report_path) }

/-- Embedding of `main` (src/app.py lines 176-209) over a `World`
supplying the results of the external interactions; returns the ordered
trace of external actions performed and the final outcome.
`load_quantitative_data` reads the file only when a path was given. -/
def mainRun (args : Args) (w : World) :
    List Event × Except String (List String × List String) :=
  let events := [Event.loadDotenv, Event.parseArgs]
  if !w.audio_exists then
    (events, Except.error ("오디오 파일을 찾을 수 없습니다: " ++ args.audio))
  else
    let (events, quant_load) :=
      match args.quant_data with
      | none => (events, Except.ok none)
      | some _ => (events ++ [Event.readQuantData], w.quant_result)
    match quant_load with
    | Except.error e => (events, Except.error e)
    | Except.ok quantitative_data =>
      let events := events ++ [Event.constructClient, Event.transcribeCall]
      match w.transcribe_response with
      | Except.error e => (events, Except.error e)
      | Except.ok response =>
        let transcript := transcribe_audio response
        let prompt := mainPrompt args transcript quantitative_data
        let events := events ++ [Event.generateCall]
        match w.generate_output prompt with
        | Except.error e => (events, Except.error e)
        | Except.ok output_text =>
          let report := pyStrip output_text
          let outcome := save_outputs args.output_dir w.now_ts transcript report
          (events ++ [Event.writeOutputs], Except.ok outcome.returned)

/-- The `choices` list of the `--report-type` flag (src/app.py lines
150-155). -/
def report_type_choices : List String := ["meeting", "interview"]

/-- Argparse's documented handling of an optional flag with `choices`
and a `default`: an absent flag yields the default, a given value is
accepted only when it is among the choices, and any other value makes
argparse exit with an error before `main` proceeds. -/
def parse_choice (choices : List String) (dflt : String)
    (given : Option String) : Except String String :=
  match given with
  | none => Except.ok dflt
  | some v => if v ∈ choices then Except.ok v else Except.error "invalid choice"

/-! ## Helper lemmas -/

lemma segLineStep_eq_append (lines : List String) (s : Segment) :
    segLineStep lines s = lines ++ (claimLine s).toList := by
  by_cases h : pyStrip (s.text.getD "") = "" <;>
    simp [segLineStep, claimLine, h]

lemma foldl_segLineStep (segs : List Segment) (acc : List String) :
    segs.foldl segLineStep acc = acc ++ segs.filterMap claimLine := by
  induction segs generalizing acc with
  | nil => simp
  | cons x xs ih =>
    rw [List.foldl_cons, ih, segLineStep_eq_append]
    cases h : claimLine x <;> simp [List.filterMap_cons, h]

lemma listPrefixOf_append (pat rest : List Char) :
    listPrefixOf pat (pat ++ rest) = true := by
  induction pat with
  | nil => rfl
  | cons a as ih => simp [listPrefixOf, ih]

lemma listInfixOf_append (pat pre rest : List Char) :
    listInfixOf pat (pre ++ (pat ++ rest)) = true := by
  induction pre with
  | nil =>
    rw [List.nil_append]
    cases hp : pat ++ rest with
    | nil =>
      have hpat : pat = [] := (List.append_eq_nil.mp hp).1
      simp [listInfixOf, hpat]
    | cons b bs =>
      show (listPrefixOf pat (b :: bs) || listInfixOf pat bs) = true
      rw [← hp, listPrefixOf_append]
      simp
  | cons p ps ih => simp [listInfixOf, ih]

lemma strContains_of_parts (s pre pat post : String)
    (h : s = pre ++ pat ++ post) : strContains s pat = true := by
  subst h
  unfold strContains
  rw [String.data_append, String.data_append, List.append_assoc]
  exact listInfixOf_append pat.data pre.data post.data

lemma str_append_assoc (a b c : String) : a ++ b ++ c = a ++ (b ++ c) := by
  apply String.ext
  simp [String.data_append, List.append_assoc]

lemma pyStripList_sandwich (c d : Char) (m : List Char)
    (hc : isPyWs c = false) (hd : isPyWs d = false) :
    pyStripList ('\n' :: (c :: m ++ [d]) ++ ['\n']) = c :: m ++ [d] := by
  have hnl : isPyWs '\n' = true := by decide
  simp [pyStripList, List.dropWhile_cons, hnl, hc, hd, List.reverse_append]

lemma pyStrip_sandwich (s : String) (c d : Char) (m : List Char)
    (hs : s.data = c :: m ++ [d]) (hc : isPyWs c = false) (hd : isPyWs d = false) :
    pyStrip ("\n" ++ s ++ "\n") = s := by
  unfold pyStrip
  have hdata : ("\n" ++ s ++ "\n").data = '\n' :: (c :: m ++ [d]) ++ ['\n'] := by
    rw [String.data_append, String.data_append, hs]
    rfl
  rw [hdata, pyStripList_sandwich c d m hc hd, ← hs]

lemma data_hash_shi (mid : String) :
    ("#" ++ mid ++ "시").data = '#' :: mid.data ++ ['시'] := by
  rw [String.data_append, String.data_append]
  rfl

lemma build_analysis_prompt_eq (t rt cn lo dl : String) (pa cl : Bool)
    (pbc : String) (qd : Option (List (String × Json))) :
    build_analysis_prompt t rt cn lo dl pa cl pbc qd =
      promptCore t rt cn lo dl pa cl pbc qd := by
  have h1 : pA = "\n" ++ pAc := rfl
  have h2 : pJ = pJc ++ "\n" := rfl
  have hsplit : promptCore t rt cn lo dl pa cl pbc qd =
      "#" ++ (pAcTail ++ cn ++ pB ++ lo ++ pC ++ dl ++ pD ++ pyBoolStr pa ++ pE ++
        pyBoolStr cl ++ pF ++ pbc ++ pG ++ quantitativeText qd ++ pH ++ t ++ pI ++
        selectedTemplate rt ++ pJcInit) ++ "시" := by
    have h3 : pAc = "#" ++ pAcTail := rfl
    have h4 : pJc = pJcInit ++ "시" := rfl
    unfold promptCore
    conv_lhs => rw [h3, h4]
    simp only [str_append_assoc]
  have hs : (promptCore t rt cn lo dl pa cl pbc qd).data =
      '#' :: (pAcTail ++ cn ++ pB ++ lo ++ pC ++ dl ++ pD ++ pyBoolStr pa ++ pE ++
        pyBoolStr cl ++ pF ++ pbc ++ pG ++ quantitativeText qd ++ pH ++ t ++ pI ++
        selectedTemplate rt ++ pJcInit).data ++ ['시'] := by
    have h5 := data_hash_shi (pAcTail ++ cn ++ pB ++ lo ++ pC ++ dl ++ pD ++
      pyBoolStr pa ++ pE ++ pyBoolStr cl ++ pF ++ pbc ++ pG ++
      quantitativeText qd ++ pH ++ t ++ pI ++ selectedTemplate rt ++ pJcInit)
    rw [← hsplit] at h5
    exact h5
  have harg : "\n" ++ pAc ++ cn ++ pB ++ lo ++ pC ++ dl ++ pD ++ pyBoolStr pa ++
      pE ++ pyBoolStr cl ++ pF ++ pbc ++ pG ++ quantitativeText qd ++ pH ++ t ++
      pI ++ selectedTemplate rt ++ (pJc ++ "\n") =
      "\n" ++ promptCore t rt cn lo dl pa cl pbc qd ++ "\n" := by
    unfold promptCore
    simp only [str_append_assoc]
  show pyStrip (pA ++ cn ++ pB ++ lo ++ pC ++ dl ++ pD ++ pyBoolStr pa ++ pE ++
    pyBoolStr cl ++ pF ++ pbc ++ pG ++ quantitativeText qd ++ pH ++ t ++ pI ++
    selectedTemplate rt ++ pJ) = _
  conv_lhs => rw [h1, h2, harg]
  exact pyStrip_sandwich _ '#' '시' _ hs (by decide) (by decide)

/-! ## Claims -/

/-- C1: the segmented branch of `transcribe_audio` produces exactly one
line per segment with non-empty trimmed text, of the form
`[mm:ss] 화자미상: text` with `(mm, ss) = divmod(floor(start), 60)`
zero-padded to two digits, in segment order, joined by newlines, and
the result is stripped; a single segment `{start: 5, text: "hello"}`
yields exactly `[00:05] 화자미상: hello`. -/
theorem C1_segment_formatting (segs : List Segment) (t : Option String)
    (h : segs ≠ []) :
    transcribe_audio ⟨some segs, t⟩ =
      pyStrip (String.intercalate "\n" (segs.filterMap claimLine)) ∧
    transcribe_audio ⟨some [⟨some 5, some "hello"⟩], none⟩ =
      "[00:05] 화자미상: hello" := by
  constructor
  · match segs, h with
    | x :: xs, _ =>
      show pyStrip (String.intercalate "\n" ((x :: xs).foldl segLineStep [])) = _
      rw [foldl_segLineStep]
      rfl
  · decide

/-- Witness for C1 at the concrete single-segment input of the spec's
end-to-end scenario. -/
theorem C1_segment_formatting_witness :
    transcribe_audio ⟨some [⟨some 5, some "hello"⟩], none⟩ =
      pyStrip (String.intercalate "\n"
        ([(⟨some 5, some "hello"⟩ : Segment)].filterMap claimLine)) ∧
    transcribe_audio ⟨some [⟨some 5, some "hello"⟩], none⟩ =
      "[00:05] 화자미상: hello" :=
  ⟨(C1_segment_formatting [⟨some 5, some "hello"⟩] none (by simp)).1,
   (C1_segment_formatting [⟨some 5, some "hello"⟩] none (by simp)).2⟩

/-- C3: with an empty or absent segment list, `transcribe_audio`
returns the flat `text` field stripped, and the empty string when
`text` is also absent. -/
theorem C3_flat_fallback (t : Option String) :
    transcribe_audio ⟨none, t⟩ = pyStrip (t.getD "") ∧
    transcribe_audio ⟨some [], t⟩ = pyStrip (t.getD "") ∧
    transcribe_audio ⟨none, none⟩ = "" ∧
    transcribe_audio ⟨some [], some " hi \n"⟩ = "hi" :=
  ⟨rfl, rfl, rfl, by decide⟩

/-- C10: `transcribe_audio` is total over segments with missing
optional fields: a segment without `start` is treated as start time 0
and formats as `[00:00]`, and a segment without `text` is treated as
empty text and contributes no line. -/
theorem C10_missing_fields (txt : String) (s : Nat) (t : Option String) :
    transcribe_audio ⟨some [⟨none, some txt⟩], t⟩ =
      transcribe_audio ⟨some [⟨some 0, some txt⟩], t⟩ ∧
    transcribe_audio ⟨some [⟨some s, none⟩], t⟩ =
      transcribe_audio ⟨some [⟨some s, some ""⟩], t⟩ ∧
    transcribe_audio ⟨some [⟨some s, none⟩], t⟩ = "" ∧
    transcribe_audio ⟨some [⟨none, some "hi"⟩], none⟩ = "[00:00] 화자미상: hi" :=
  ⟨rfl, rfl, rfl, by decide⟩

/-- C5: `report_type = "meeting"` makes the prompt contain the meeting
template's section headers verbatim; every other value makes it contain
the interview template's headers; no error in either case. -/
theorem C5_template_selection (t rt cn lo dl : String) (pa cl : Bool)
    (pbc : String) (qd : Option (List (String × Json))) :
    (rt = "meeting" →
      strContains (build_analysis_prompt t rt cn lo dl pa cl pbc qd)
        meeting_template = true) ∧
    (rt ≠ "meeting" →
      strContains (build_analysis_prompt t rt cn lo dl pa cl pbc qd)
        interview_template = true) := by
  constructor
  · intro h
    apply strContains_of_parts _
      (pAc ++ cn ++ pB ++ lo ++ pC ++ dl ++ pD ++ pyBoolStr pa ++ pE ++
        pyBoolStr cl ++ pF ++ pbc ++ pG ++ quantitativeText qd ++ pH ++ t ++ pI)
      _ pJc
    rw [build_analysis_prompt_eq]
    unfold promptCore selectedTemplate
    rw [if_pos h]
  · intro h
    apply strContains_of_parts _
      (pAc ++ cn ++ pB ++ lo ++ pC ++ dl ++ pD ++ pyBoolStr pa ++ pE ++
        pyBoolStr cl ++ pF ++ pbc ++ pG ++ quantitativeText qd ++ pH ++ t ++ pI)
      _ pJc
    rw [build_analysis_prompt_eq]
    unfold promptCore selectedTemplate
    rw [if_neg h]

/-- Witness for C5 at `report_type = "meeting"` and
`report_type = "interview"`. -/
theorem C5_template_selection_witness :
    strContains (build_analysis_prompt "t" "meeting" "c" "ko" "Exhaustive"
      true true "p" none) meeting_template = true ∧
    strContains (build_analysis_prompt "t" "interview" "c" "ko" "Exhaustive"
      true true "p" none) interview_template = true :=
  ⟨(C5_template_selection "t" "meeting" "c" "ko" "Exhaustive" true true "p" none).1 rfl,
   (C5_template_selection "t" "interview" "c" "ko" "Exhaustive" true true "p" none).2
     (by decide)⟩

/-- C2 as amended: an absent or empty quantitative-data object yields
the literal 없음 marker in the prompt; a present non-empty object
yields its `json.dumps(..., ensure_ascii=False, indent=2)`
serialization. -/
theorem C2_quantitative_rendering (t rt cn lo dl : String) (pa cl : Bool)
    (pbc : String) (qd : Option (List (String × Json))) :
    ((qd = none ∨ qd = some []) →
      strContains (build_analysis_prompt t rt cn lo dl pa cl pbc qd)
        "없음" = true) ∧
    (∀ e es, qd = some (e :: es) →
      strContains (build_analysis_prompt t rt cn lo dl pa cl pbc qd)
        (pyJsonDumps (Json.obj (e :: es))) = true) := by
  constructor
  · intro h
    apply strContains_of_parts _
      (pAc ++ cn ++ pB ++ lo ++ pC ++ dl ++ pD ++ pyBoolStr pa ++ pE ++
        pyBoolStr cl ++ pF ++ pbc ++ pG)
      _ (pH ++ t ++ pI ++ selectedTemplate rt ++ pJc)
    rw [build_analysis_prompt_eq]
    unfold promptCore
    have hq : quantitativeText qd = "없음" := by
      rcases h with h | h <;> rw [h] <;> rfl
    rw [hq]
    simp only [str_append_assoc]
  · intro e es h
    apply strContains_of_parts _
      (pAc ++ cn ++ pB ++ lo ++ pC ++ dl ++ pD ++ pyBoolStr pa ++ pE ++
        pyBoolStr cl ++ pF ++ pbc ++ pG)
      _ (pH ++ t ++ pI ++ selectedTemplate rt ++ pJc)
    rw [build_analysis_prompt_eq]
    unfold promptCore
    have hq : quantitativeText qd = pyJsonDumps (Json.obj (e :: es)) := by
      rw [h]; rfl
    rw [hq]
    simp only [str_append_assoc]

/-- Witness for C2 as amended, at an absent payload and at a one-entry
payload. -/
theorem C2_quantitative_rendering_witness :
    strContains (build_analysis_prompt "t" "meeting" "c" "ko" "Exhaustive"
      true true "p" none) "없음" = true ∧
    strContains (build_analysis_prompt "t" "meeting" "c" "ko" "Exhaustive"
      true true "p" (some [("a", Json.num 1)]))
      (pyJsonDumps (Json.obj [("a", Json.num 1)])) = true :=
  ⟨(C2_quantitative_rendering "t" "meeting" "c" "ko" "Exhaustive" true true "p"
      none).1 (Or.inl rfl),
   (C2_quantitative_rendering "t" "meeting" "c" "ko" "Exhaustive" true true "p"
      (some [("a", Json.num 1)])).2 ("a", Json.num 1) [] rfl⟩

set_option maxRecDepth 16384 in
set_option maxHeartbeats 1000000 in
/-- C2 counterexample: for a present but empty quantitative-data object
the serialization would be the two-character object braces, yet the
prompt does not contain it; the prompt contains the 없음 marker
instead and is byte-identical to the absent-payload prompt, because
Python's truthiness test treats an empty dict like `None`. -/
theorem C2_counterexample :
    pyJsonDumps (Json.obj []) = "\x7b\x7d" ∧
    strContains (build_analysis_prompt "t" "meeting" "c" "ko" "Exhaustive"
      true true "p" (some [])) "\x7b\x7d" = false ∧
    strContains (build_analysis_prompt "t" "meeting" "c" "ko" "Exhaustive"
      true true "p" (some [])) "없음" = true ∧
    build_analysis_prompt "t" "meeting" "c" "ko" "Exhaustive" true true "p"
        (some []) =
      build_analysis_prompt "t" "meeting" "c" "ko" "Exhaustive" true true "p"
        none := by
  refine ⟨rfl, by decide, by decide, rfl⟩

/-- C4: the prompt builder is deterministic and pure — equal arguments
give byte-identical prompts (the embedding is a total function with no
effects). -/
theorem C4_prompt_deterministic (t₁ t₂ rt₁ rt₂ cn₁ cn₂ lo₁ lo₂ dl₁ dl₂ : String)
    (pa₁ pa₂ cl₁ cl₂ : Bool) (pbc₁ pbc₂ : String)
    (qd₁ qd₂ : Option (List (String × Json)))
    (ht : t₁ = t₂) (hrt : rt₁ = rt₂) (hcn : cn₁ = cn₂) (hlo : lo₁ = lo₂)
    (hdl : dl₁ = dl₂) (hpa : pa₁ = pa₂) (hcl : cl₁ = cl₂) (hpbc : pbc₁ = pbc₂)
    (hqd : qd₁ = qd₂) :
    build_analysis_prompt t₁ rt₁ cn₁ lo₁ dl₁ pa₁ cl₁ pbc₁ qd₁ =
      build_analysis_prompt t₂ rt₂ cn₂ lo₂ dl₂ pa₂ cl₂ pbc₂ qd₂ := by
  subst ht hrt hcn hlo hdl hpa hcl hpbc hqd
  rfl

/-- Witness for C4 at one concrete argument tuple. -/
theorem C4_prompt_deterministic_witness :
    build_analysis_prompt "t" "meeting" "c" "ko" "Summary" true false "p" none =
      build_analysis_prompt "t" "meeting" "c" "ko" "Summary" true false "p" none :=
  C4_prompt_deterministic "t" "t" "meeting" "meeting" "c" "c" "ko" "ko"
    "Summary" "Summary" true true false false "p" "p" none none
    rfl rfl rfl rfl rfl rfl rfl rfl rfl

/-- C8: with both `--no-anonymize` and `--no-confidence-label` set, the
prompt built by `main` renders `false` on both the Privacy_Anonymize
and Confidence_Labeling parameter lines; with neither set, both render
`true`. -/
theorem C8_flag_rendering (a cn lo rt dl pbc : String) (od : List String)
    (qdp : Option String) (t : String) (qd : Option (List (String × Json))) :
    (strContains (mainPrompt ⟨a, cn, lo, od, rt, dl, pbc, qdp, true, true⟩ t qd)
        "- Privacy_Anonymize: false" = true ∧
     strContains (mainPrompt ⟨a, cn, lo, od, rt, dl, pbc, qdp, true, true⟩ t qd)
        "- Confidence_Labeling: false" = true) ∧
    (strContains (mainPrompt ⟨a, cn, lo, od, rt, dl, pbc, qdp, false, false⟩ t qd)
        "- Privacy_Anonymize: true" = true ∧
     strContains (mainPrompt ⟨a, cn, lo, od, rt, dl, pbc, qdp, false, false⟩ t qd)
        "- Confidence_Labeling: true" = true) := by
  refine ⟨⟨?_, ?_⟩, ⟨?_, ?_⟩⟩
  · apply strContains_of_parts _
      (pAc ++ cn ++ pB ++ lo ++ pC ++ dl ++ "\"\n") _
      (pE ++ pyBoolStr (!true) ++ pF ++ pbc ++ pG ++ quantitativeText qd ++
        pH ++ t ++ pI ++ selectedTemplate rt ++ pJc)
    show build_analysis_prompt t rt cn lo dl (!true) (!true) pbc qd = _
    rw [build_analysis_prompt_eq]
    unfold promptCore
    simp only [show pD = "\"\n" ++ "- Privacy_Anonymize: " from rfl,
      show ("- Privacy_Anonymize: false" : String) =
        "- Privacy_Anonymize: " ++ "false" from rfl,
      show pyBoolStr (!true) = "false" from rfl, str_append_assoc]
  · apply strContains_of_parts _
      (pAc ++ cn ++ pB ++ lo ++ pC ++ dl ++ pD ++ pyBoolStr (!true) ++ "\n") _
      (pF ++ pbc ++ pG ++ quantitativeText qd ++
        pH ++ t ++ pI ++ selectedTemplate rt ++ pJc)
    show build_analysis_prompt t rt cn lo dl (!true) (!true) pbc qd = _
    rw [build_analysis_prompt_eq]
    unfold promptCore
    simp only [show pE = "\n" ++ "- Confidence_Labeling: " from rfl,
      show ("- Confidence_Labeling: false" : String) =
        "- Confidence_Labeling: " ++ "false" from rfl,
      show pyBoolStr (!true) = "false" from rfl, str_append_assoc]
  · apply strContains_of_parts _
      (pAc ++ cn ++ pB ++ lo ++ pC ++ dl ++ "\"\n") _
      (pE ++ pyBoolStr (!false) ++ pF ++ pbc ++ pG ++ quantitativeText qd ++
        pH ++ t ++ pI ++ selectedTemplate rt ++ pJc)
    show build_analysis_prompt t rt cn lo dl (!false) (!false) pbc qd = _
    rw [build_analysis_prompt_eq]
    unfold promptCore
    simp only [show pD = "\"\n" ++ "- Privacy_Anonymize: " from rfl,
      show ("- Privacy_Anonymize: true" : String) =
        "- Privacy_Anonymize: " ++ "true" from rfl,
      show pyBoolStr (!false) = "true" from rfl, str_append_assoc]
  · apply strContains_of_parts _
      (pAc ++ cn ++ pB ++ lo ++ pC ++ dl ++ pD ++ pyBoolStr (!false) ++ "\n") _
      (pF ++ pbc ++ pG ++ quantitativeText qd ++
        pH ++ t ++ pI ++ selectedTemplate rt ++ pJc)
    show build_analysis_prompt t rt cn lo dl (!false) (!false) pbc qd = _
    rw [build_analysis_prompt_eq]
    unfold promptCore
    simp only [show pE = "\n" ++ "- Confidence_Labeling: " from rfl,
      show ("- Confidence_Labeling: true" : String) =
        "- Confidence_Labeling: " ++ "true" from rfl,
      show pyBoolStr (!false) = "true" from rfl, str_append_assoc]

/-- C9: argparse restricts `--report-type` to the two declared choices
with default `"meeting"`, so every report type reaching
`build_analysis_prompt` from the CLI is `"meeting"` or `"interview"`,
and the template fallback for values other than `"meeting"` is only
ever exercised by `"interview"`. -/
theorem C9_report_type_closed (given : Option String) (r : String)
    (h : parse_choice report_type_choices "meeting" given = Except.ok r) :
    (r = "meeting" ∨ r = "interview") ∧
    (r ≠ "meeting" → r = "interview" ∧ selectedTemplate r = interview_template) := by
  have hr : r = "meeting" ∨ r = "interview" := by
    cases given with
    | none =>
      simp only [parse_choice, Except.ok.injEq] at h
      exact Or.inl h.symm
    | some v =>
      by_cases hv : v ∈ report_type_choices
      · simp only [parse_choice, if_pos hv, Except.ok.injEq] at h
        subst h
        simpa [report_type_choices] using hv
      · simp [parse_choice, if_neg hv] at h
  refine ⟨hr, fun hne => ?_⟩
  rcases hr with h1 | h1
  · exact absurd h1 hne
  · exact ⟨h1, by rw [h1]; rfl⟩

/-- Witness for C9 at the explicit CLI value `interview`. -/
theorem C9_report_type_closed_witness :
    (("interview" : String) = "meeting" ∨ ("interview" : String) = "interview") ∧
    (("interview" : String) ≠ "meeting" →
      ("interview" : String) = "interview" ∧
      selectedTemplate "interview" = interview_template) :=
  C9_report_type_closed (some "interview") "interview" rfl

/-- C6: when the audio path does not exist, `main` raises an error
immediately: the outcome is an error and the trace contains no
quant-file read, no client construction, no transcription call and no
generation call. -/
theorem C6_missing_audio_halts (args : Args) (w : World)
    (h : w.audio_exists = false) :
    (∃ msg, (mainRun args w).2 = Except.error msg) ∧
    Event.readQuantData ∉ (mainRun args w).1 ∧
    Event.constructClient ∉ (mainRun args w).1 ∧
    Event.transcribeCall ∉ (mainRun args w).1 ∧
    Event.generateCall ∉ (mainRun args w).1 := by
  have hrun : mainRun args w = ([Event.loadDotenv, Event.parseArgs],
      Except.error ("오디오 파일을 찾을 수 없습니다: " ++ args.audio)) := by
    unfold mainRun
    rw [h]
    rfl
  refine ⟨⟨_, by rw [hrun]⟩, ?_, ?_, ?_, ?_⟩ <;> rw [hrun]
  · show Event.readQuantData ∉ [Event.loadDotenv, Event.parseArgs]
    decide
  · show Event.constructClient ∉ [Event.loadDotenv, Event.parseArgs]
    decide
  · show Event.transcribeCall ∉ [Event.loadDotenv, Event.parseArgs]
    decide
  · show Event.generateCall ∉ [Event.loadDotenv, Event.parseArgs]
    decide

/-- Witness for C6 at a concrete argument record and world with a
missing audio file. -/
theorem C6_missing_audio_halts_witness :
    (∃ msg, (mainRun ⟨"a.mp3", "c", "ko", ["outputs"], "meeting", "Exhaustive",
        "p", none, false, false⟩
      ⟨false, Except.ok none, Except.ok ⟨none, none⟩, fun _ => Except.ok "",
        "20260101_000000"⟩).2 = Except.error msg) ∧
    Event.readQuantData ∉ (mainRun ⟨"a.mp3", "c", "ko", ["outputs"], "meeting",
        "Exhaustive", "p", none, false, false⟩
      ⟨false, Except.ok none, Except.ok ⟨none, none⟩, fun _ => Except.ok "",
        "20260101_000000"⟩).1 ∧
    Event.constructClient ∉ (mainRun ⟨"a.mp3", "c", "ko", ["outputs"], "meeting",
        "Exhaustive", "p", none, false, false⟩
      ⟨false, Except.ok none, Except.ok ⟨none, none⟩, fun _ => Except.ok "",
        "20260101_000000"⟩).1 ∧
    Event.transcribeCall ∉ (mainRun ⟨"a.mp3", "c", "ko", ["outputs"], "meeting",
        "Exhaustive", "p", none, false, false⟩
      ⟨false, Except.ok none, Except.ok ⟨none, none⟩, fun _ => Except.ok "",
        "20260101_000000"⟩).1 ∧
    Event.generateCall ∉ (mainRun ⟨"a.mp3", "c", "ko", ["outputs"], "meeting",
        "Exhaustive", "p", none, false, false⟩
      ⟨false, Except.ok none, Except.ok ⟨none, none⟩, fun _ => Except.ok "",
        "20260101_000000"⟩).1 :=
  C6_missing_audio_halts _ _ rfl

/-- C7: `save_outputs` creates the output directory with parents and
without error when present, and returns exactly two paths under that
directory, named `transcript_<timestamp>.txt` and
`analysis_report_<timestamp>.md` with one shared timestamp. -/
theorem C7_save_outputs_paths (dir : List String) (ts t r : String) :
    (save_outputs dir ts t r).mkdir_path = dir ∧
    (save_outputs dir ts t r).mkdir_parents = true ∧
    (save_outputs dir ts t r).mkdir_exist_ok = true ∧
    (save_outputs dir ts t r).writes.length = 2 ∧
    ∃ tstamp,
      (save_outputs dir ts t r).returned.1 =
        dir ++ ["transcript_" ++ tstamp ++ ".txt"] ∧
      (save_outputs dir ts t r).returned.2 =
        dir ++ ["analysis_report_" ++ tstamp ++ ".md"] :=
  ⟨rfl, rfl, rfl, rfl, ts, rfl, rfl⟩

end SPI
